import Mathlib

/-!
Verification development for the RoboBrain task-pipeline orchestration engine.

The definitions below are a shallow embedding of the Python sources:
  scripts/pipeline_chat.py      (GroqPipelineDecomposer, PipelineExecutor)
  scripts/smart_chat.py         (classify_task_fallback)
  scripts/conversation_memory.py (Turn, ConversationMemory, MultiTurnInference)

External collaborators (the Groq LLM, the vision-language inference backend,
the renderer, the filesystem) are modelled as function parameters; machine
floats are modelled as exact rationals (all claims exercise only small,
exactly representable values); Python dictionaries coming from JSON are
modelled as records of optional fields.
-/

namespace Robobrain

/-! ### Python string/regex primitives used by the sources -/

/-- ASCII whitespace matched by the regex class in the source patterns
(space, tab, newline, carriage return, vertical tab, form feed). -/
def isPySpace (c : Char) : Bool :=
  c == ' ' || c == '\t' || c == '\n' || c == '\r' || c == '\x0b' || c == '\x0c'

/-- ASCII digit test, the practical reading of the digit class used by the
source regexes on model answers. -/
def isDigitChar (c : Char) : Bool :=
  '0' ≤ c && c ≤ '9'

/-- Natural-number value of a digit run. -/
def digitsVal (ds : List Char) : Nat :=
  ds.foldl (fun acc c => 10 * acc + (c.toNat - 48)) 0

/-- Exact rational value of the number written `intPart.fracPart`
(an empty fractional part contributes zero).  Built with `mkRat` so that it
evaluates inside the kernel; the lemma `numVal_eq` below states the value in
ordinary rational arithmetic. -/
def numVal (intPart fracPart : List Char) : ℚ :=
  mkRat (Int.ofNat (digitsVal intPart * 10 ^ fracPart.length + digitsVal fracPart))
    (10 ^ fracPart.length)

/-- Adding an integer to a rational, phrased through `mkRat` so that it
evaluates inside the kernel; `qShift_eq` states the value. -/
def qShift (a : ℚ) (k : Int) : ℚ :=
  mkRat (a.num + k * a.den) a.den

theorem qShift_eq (a : ℚ) (k : Int) : qShift a k = a + k := by
  have hd : (a.den : ℚ) ≠ 0 := by exact_mod_cast a.den_nz
  rw [qShift, Rat.mkRat_eq_div]
  push_cast
  rw [add_div, mul_div_assoc, div_self hd, mul_one, Rat.num_div_den]

theorem numVal_eq (intPart fracPart : List Char) :
    numVal intPart fracPart =
      (digitsVal intPart : ℚ) + (digitsVal fracPart : ℚ) / ((10 : ℚ) ^ fracPart.length) := by
  have hd : ((10 : ℚ) ^ fracPart.length) ≠ 0 := by positivity
  rw [numVal, Rat.mkRat_eq_div]
  push_cast [Int.ofNat_eq_coe]
  rw [add_div, mul_div_assoc, div_self hd, mul_one]

/-- Match the regex fragment for one number (a digit run with an optional
dot-separated fractional digit run) at the head of the list, returning the
parsed value and the remaining characters. -/
def matchNumber (cs : List Char) : Option (ℚ × List Char) :=
  let ds := cs.takeWhile isDigitChar
  let rest := cs.dropWhile isDigitChar
  if ds.isEmpty then none
  else
    match rest with
    | '.' :: rest2 =>
      let fs := rest2.takeWhile isDigitChar
      if fs.isEmpty then some (numVal ds [], rest)
      else some (numVal ds fs, rest2.dropWhile isDigitChar)
    | _ => some (numVal ds [], rest)

/-- Match the regex fragment of a comma with optional surrounding whitespace. -/
def matchCommaSp (cs : List Char) : Option (List Char) :=
  match cs.dropWhile isPySpace with
  | ',' :: r => some (r.dropWhile isPySpace)
  | _ => none

/-- Match one occurrence of the two-number pattern delimited by `o`/`c`
(such as the parenthesized pair or the bracketed pair of the source)
starting exactly at the head of the list. -/
def matchPairAt (o c : Char) (cs : List Char) : Option ((ℚ × ℚ) × List Char) :=
  match cs with
  | [] => none
  | x :: r0 =>
    if x = o then
      match matchNumber r0 with
      | none => none
      | some (n1, r1) =>
        match matchCommaSp r1 with
        | none => none
        | some r2 =>
          match matchNumber r2 with
          | none => none
          | some (n2, r3) =>
            match r3 with
            | y :: r4 => if y = c then some ((n1, n2), r4) else none
            | [] => none
    else none

/-- Match one occurrence of the bracketed four-number pattern
starting exactly at the head of the list. -/
def matchQuadAt (cs : List Char) : Option ((ℚ × ℚ × ℚ × ℚ) × List Char) :=
  match cs with
  | [] => none
  | x :: r0 =>
    if x = '[' then
      match matchNumber r0 with
      | none => none
      | some (n1, r1) =>
        match matchCommaSp r1 with
        | none => none
        | some r2 =>
          match matchNumber r2 with
          | none => none
          | some (n2, r3) =>
            match matchCommaSp r3 with
            | none => none
            | some r4 =>
              match matchNumber r4 with
              | none => none
              | some (n3, r5) =>
                match matchCommaSp r5 with
                | none => none
                | some r6 =>
                  match matchNumber r6 with
                  | none => none
                  | some (n4, r7) =>
                    match r7 with
                    | y :: r8 => if y = ']' then some ((n1, n2, n3, n4), r8) else none
                    | [] => none
    else none

/-- Left-to-right non-overlapping scan for all pair matches, as the source's
findall does; the fuel starts at the list length and every step consumes at
least one character, so it never runs out before the list is exhausted. -/
def findPairsFuel (o c : Char) : Nat → List Char → List (ℚ × ℚ)
  | 0, _ => []
  | _ + 1, [] => []
  | fuel + 1, x :: rest =>
    match matchPairAt o c (x :: rest) with
    | some (p, rest2) => p :: findPairsFuel o c fuel rest2
    | none => findPairsFuel o c fuel rest

/-- All pair matches of the `o … , … c` pattern in a string, in textual order. -/
def findPairs (o c : Char) (s : String) : List (ℚ × ℚ) :=
  findPairsFuel o c s.data.length s.data

/-- Left-to-right non-overlapping scan for all bracketed quadruple matches. -/
def findQuadsFuel : Nat → List Char → List (ℚ × ℚ × ℚ × ℚ)
  | 0, _ => []
  | _ + 1, [] => []
  | fuel + 1, x :: rest =>
    match matchQuadAt (x :: rest) with
    | some (q, rest2) => q :: findQuadsFuel fuel rest2
    | none => findQuadsFuel fuel rest

/-- All bracketed quadruple matches in a string, in textual order. -/
def findQuads (s : String) : List (ℚ × ℚ × ℚ × ℚ) :=
  findQuadsFuel s.data.length s.data

/-! ### Coordinate extraction (PipelineExecutor._parse_coordinates) -/

/-- Typed geometric payload extracted from a free-text answer: either a list
of points or a list of axis-aligned boxes. -/
inductive Geometry
  | points (l : List (ℚ × ℚ))
  | boxes (l : List (ℚ × ℚ × ℚ × ℚ))
deriving DecidableEq

/-- Python truthiness of the extracted coordinate list. -/
def Geometry.isNonempty : Geometry → Bool
  | .points l => !l.isEmpty
  | .boxes l => !l.isEmpty

/-- Shallow embedding of `PipelineExecutor._parse_coordinates`: task-directed
pattern extraction with the source's fallback order.  The source wraps the
body in an exception handler, but no statement in the body can raise (the
number conversions are applied only to digit-run matches), so the embedding
is the direct translation. -/
def parseCoordinates (answer task : String) : Option Geometry :=
  if task = "pointing" then
    let ms := findPairs '(' ')' answer
    if ms.isEmpty then none else some (.points ms)
  else if task = "affordance" ∨ task = "grounding" then
    let bs := findQuads answer
    if !bs.isEmpty then some (.boxes bs)
    else
      let ps := findPairs '(' ')' answer
      if ps.isEmpty then none
      else
        some (.boxes (ps.map fun p =>
          (qShift p.1 (-30), qShift p.2 (-30), qShift p.1 30, qShift p.2 30)))
  else if task = "trajectory" then
    let bs := findPairs '[' ']' answer
    if !bs.isEmpty then some (.points bs)
    else
      let ps := findPairs '(' ')' answer
      if ps.isEmpty then none else some (.points ps)
  else none

/-- No pattern relevant to the given task matches anywhere in the answer. -/
def noMatches (answer task : String) : Bool :=
  if task = "pointing" then (findPairs '(' ')' answer).isEmpty
  else if task = "affordance" ∨ task = "grounding" then
    (findQuads answer).isEmpty && (findPairs '(' ')' answer).isEmpty
  else if task = "trajectory" then
    (findPairs '[' ']' answer).isEmpty && (findPairs '(' ')' answer).isEmpty
  else true

/-! ### Further Python primitives: substring tests, replace, truthiness -/

/-- Whether the first list occurs at the very start of the second one. -/
def leadsWith : List Char → List Char → Bool
  | [], _ => true
  | _ :: _, [] => false
  | p :: ps, c :: cs => p == c && leadsWith ps cs

/-- Substring occurrence, Python's `pat in s` on character lists. -/
def occursIn (pat : List Char) : List Char → Bool
  | [] => pat.isEmpty
  | c :: cs => leadsWith pat (c :: cs) || occursIn pat cs

/-- Python's `pat in s` membership test on strings. -/
def pyIn (pat s : String) : Bool :=
  occursIn pat.data s.data

/-- Replace all non-overlapping occurrences, left to right, as Python's
str.replace does for a non-empty pattern (the sources only ever replace the
literal placeholder token, which is non-empty).  The fuel starts at the list
length; every step consumes at least one character, so it never runs out. -/
def replaceFuel (pat rep : List Char) : Nat → List Char → List Char
  | 0, cs => cs
  | _ + 1, [] => []
  | fuel + 1, c :: cs =>
    if !pat.isEmpty && leadsWith pat (c :: cs) then
      rep ++ replaceFuel pat rep fuel (List.drop pat.length (c :: cs))
    else c :: replaceFuel pat rep fuel cs

/-- Python's `s.replace(pat, rep)` for a non-empty pattern. -/
def pyReplace (s pat rep : String) : String :=
  ⟨replaceFuel pat.data rep.data s.data.length s.data⟩

theorem replaceFuel_of_not_occurs {pat : List Char} (rep : List Char) :
    ∀ (cs : List Char) (fuel : Nat), occursIn pat cs = false →
      replaceFuel pat rep fuel cs = cs := by
  intro cs
  induction cs with
  | nil => intro fuel _; cases fuel <;> rfl
  | cons c cs ih =>
    intro fuel h
    cases fuel with
    | zero => rfl
    | succ fuel =>
      rw [occursIn, Bool.or_eq_false_iff] at h
      rw [replaceFuel, h.1, Bool.and_false, if_neg (by simp), ih fuel h.2]

/-- Replacing a pattern that does not occur leaves the string unchanged. -/
theorem pyReplace_of_not_occurs {s pat : String} (rep : String)
    (h : occursIn pat.data s.data = false) : pyReplace s pat rep = s := by
  rw [pyReplace, replaceFuel_of_not_occurs _ _ _ h]

/-- Python's `s.strip()` over the ASCII whitespace class. -/
def pyStrip (s : String) : String :=
  ⟨((s.data.dropWhile isPySpace).reverse.dropWhile isPySpace).reverse⟩

/-- Python's `s.lower()` over the ASCII letters the sources compare. -/
def pyLower (s : String) : String :=
  ⟨s.data.map Char.toLower⟩

/-- Python truthiness of an optional string (None and the empty string are
the falsy cases the sources test with bare `if x:`). -/
def optTruthy : Option String → Bool
  | some s => !(s == "")
  | none => false

/-- Python's short-circuiting `a or b` on optional strings. -/
def pyOrStr (a b : Option String) : Option String :=
  if optTruthy a then a else b

/-! ### JSON values (the durable representation used by save/load) -/

/-- JSON tree, the model of what Python's json module writes and reads;
used both for the conversation save file and for opaque turn metadata. -/
inductive Json
  | null
  | str (s : String)
  | num (q : ℚ)
  | bool (b : Bool)
  | arr (elems : List Json)
  | obj (fields : List (String × Json))

/-! ### Decomposer adapter (GroqPipelineDecomposer, pipeline_chat.py) -/

/-- One raw pipeline step as decoded from the decomposer's JSON: a Python
dict, modelled as a record of optional fields (a missing key is `none`). -/
structure StepInfo where
  step : Option Int := none
  task : Option String := none
  prompt : Option String := none
  description : Option String := none
  use_previous : Option Bool := none
deriving DecidableEq

/-- Key order of the source's task-catalog dict. -/
def robobrainTaskNames : List String :=
  ["general", "grounding", "affordance", "trajectory", "pointing"]

/-- The single-step degraded pipeline entry the decomposer falls back to. -/
def fallbackSingleStep (query descr : String) : StepInfo :=
  { step := some 1, task := some "general", prompt := some query,
    description := some descr, use_previous := some false }

/-- Embedding of the greedy bracketed-array search the decomposer applies to
the raw collaborator text: the match, when it exists, spans from the first
opening square bracket to the last closing square bracket, which must come
after it. -/
def extractArray (cs : List Char) : Option (List Char) :=
  let fromOpen := cs.dropWhile (fun c => !(c == '['))
  match fromOpen with
  | [] => none
  | _ :: _ =>
    match (fromOpen.reverse.dropWhile (fun c => !(c == ']'))).reverse with
    | [] => none
    | [_] => none
    | c1 :: c2 :: rest => some (c1 :: c2 :: rest)

/-- Post-processing pass of decompose: a trajectory step whose prompt is
shorter than 50 characters is rewritten with the generic template. -/
def enhanceShortTrajectoryPrompts (pipeline : List StepInfo) : List StepInfo :=
  pipeline.map fun st =>
    if st.task == some "trajectory" && (st.prompt.getD "").length < 50 then
      let newPrompt :=
        "generate trajectory waypoints for the robot end-effector to " ++ st.prompt.getD ""
      { st with prompt := some newPrompt }
    else st

/-- Shallow embedding of GroqPipelineDecomposer.decompose.  The Groq chat
completion is the collaborator `respond` (its error case is the whole family
of exceptions the source's handler absorbs); `loadsArray` is Python's
json.loads specialised to the extracted bracketed text, returning `none`
whenever loading — or consuming the loaded value as a list of dicts — would
raise, which the source's handler also absorbs into the fallback. -/
def decompose (loadsArray : String → Option (List StepInfo))
    (respond : Except String String) (query : String) : List StepInfo :=
  match respond with
  | .error _ => [fallbackSingleStep query "Fallback: process as general query"]
  | .ok raw =>
    match extractArray (pyStrip raw).data with
    | none => [fallbackSingleStep query "Process query directly"]
    | some sub =>
      match loadsArray (String.mk sub) with
      | some pipeline => enhanceShortTrajectoryPrompts pipeline
      | none => [fallbackSingleStep query "Fallback: process as general query"]

/-- Shallow embedding of GroqPipelineDecomposer.classify_single: the Groq
call is the collaborator `respond`; any collaborator error is absorbed into
the answer "general". -/
def classifySingle (respond : String → Except String String) (query : String) : String :=
  match respond query with
  | .error _ => "general"
  | .ok content =>
    let task := pyLower (pyStrip content)
    if robobrainTaskNames.contains task then task else "general"

/-! ### Keyword fallback classifier (classify_task_fallback, smart_chat.py) -/

/-- Match of the pointing regex (the letters a-t, optional whitespace, an
optional opening parenthesis, optional whitespace, then a digit) starting
exactly at the head of the list. -/
def matchAtNumAt (cs : List Char) : Bool :=
  match cs with
  | 'a' :: 't' :: r0 =>
    let r1 := r0.dropWhile isPySpace
    let r2 := match r1 with
      | '(' :: r => r
      | _ => r1
    match r2.dropWhile isPySpace with
    | c :: _ => isDigitChar c
    | [] => false
  | _ => false

/-- Search for the pointing regex anywhere in the list, as re.search does. -/
def searchAtNum : List Char → Bool
  | [] => false
  | c :: cs => matchAtNumAt (c :: cs) || searchAtNum cs

/-- Python's `any(kw in pl for kw in kws)`. -/
def anyKeywordIn (pl : String) (kws : List String) : Bool :=
  kws.any fun k => pyIn k pl

/-- Shallow embedding of smart_chat.classify_task_fallback, the
deterministic keyword classifier; returns the (task, confidence, reason)
triple of the source, omitting its trailing always-empty extra-info dict. -/
def classifyTaskFallback (prompt : String) : String × ℚ × String :=
  let pl := pyStrip (pyLower prompt)
  if anyKeywordIn pl ["where is", "find", "locate", "show me where"] then
    ("grounding", mkRat 7 10, "keyword: location query")
  else if anyKeywordIn pl ["grasp", "grab", "pick up", "graspable", "affordance"] then
    ("affordance", mkRat 7 10, "keyword: manipulation query")
  else if anyKeywordIn pl ["path", "trajectory", "move to", "reach", "navigate"] then
    ("trajectory", mkRat 7 10, "keyword: motion planning query")
  else if searchAtNum pl.data || pyIn "at coordinate" pl then
    ("pointing", mkRat 7 10, "keyword: coordinate query")
  else
    ("general", mkRat 6 10, "default: general question")

/-! ### Conversation memory (conversation_memory.py) -/

/-- One conversation turn.  The timestamp is supplied by the wall clock at
creation time, so the construction sites below take it as an argument;
metadata is an opaque string-keyed map of JSON-representable values. -/
structure Turn where
  role : String
  content : String
  image_path : Option String := none
  task : Option String := none
  timestamp : String := ""
  metadata : List (String × Json) := []

/-- The memory record; max_turns is a count (the source's default is 20). -/
structure ConversationMemory where
  turns : List Turn := []
  current_image : Option String := none
  max_turns : Nat := 20

/-- Python's slice `l[-k:]`: for positive k the last k elements (all of them
when k exceeds the length); for k = 0 the slice is `l[-0:]`, which Python
reads as `l[0:]`, the whole list. -/
def pySliceLast (k : Nat) (l : List α) : List α :=
  if k = 0 then l else l.drop (l.length - k)

/-- Shallow embedding of ConversationMemory._trim_history. -/
def trimHistory (m : ConversationMemory) : ConversationMemory :=
  if m.max_turns < m.turns.length then
    { m with turns := pySliceLast m.max_turns m.turns }
  else m

/-- Shallow embedding of ConversationMemory.add_user_turn. -/
def addUserTurn (m : ConversationMemory) (content : String)
    (image_path : Option String) (task : String) (ts : String) : ConversationMemory :=
  let cur := if optTruthy image_path then image_path else m.current_image
  let turn : Turn :=
    { role := "user", content := content,
      image_path := pyOrStr image_path cur, task := some task,
      timestamp := ts, metadata := [] }
  trimHistory { m with current_image := cur, turns := m.turns ++ [turn] }

/-- Shallow embedding of ConversationMemory.add_assistant_turn (the source's
`metadata or {}` defaulting is applied by the caller of this embedding). -/
def addAssistantTurn (m : ConversationMemory) (content : String)
    (metadata : List (String × Json)) (ts : String) : ConversationMemory :=
  let turn : Turn :=
    { role := "assistant", content := content, image_path := m.current_image,
      task := none, timestamp := ts, metadata := metadata }
  trimHistory { m with turns := m.turns ++ [turn] }

/-- Shallow embedding of ConversationMemory.get_context_prompt. -/
def getContextPrompt (m : ConversationMemory) (include_images : Bool) : String :=
  if m.turns.isEmpty then ""
  else
    let body := (m.turns.rtake 10).map fun turn =>
      let roleLabel := if turn.role = "user" then "User" else "Assistant"
      if optTruthy turn.image_path && include_images && turn.role == "user" then
        roleLabel ++ " (with image): " ++ turn.content
      else
        roleLabel ++ ": " ++ turn.content
    String.intercalate "\n" (["[Previous conversation context]"] ++ body ++ ["[Current query]"])

/-! ### Durable representation (ConversationMemory.save / load) -/

/-- JSON encoding of an optional string field (Python None becomes null). -/
def encOptStr : Option String → Json
  | some s => .str s
  | none => .null

/-- The per-turn dict built by ConversationMemory.save. -/
def encodeTurn (t : Turn) : Json :=
  .obj [("role", .str t.role), ("content", .str t.content),
        ("image_path", encOptStr t.image_path), ("task", encOptStr t.task),
        ("timestamp", .str t.timestamp), ("metadata", .obj t.metadata)]

/-- The JSON record ConversationMemory.save writes (serialising the tree to
text and writing the file are lossless library I/O outside the model). -/
def saveData (m : ConversationMemory) : Json :=
  .obj [("current_image", encOptStr m.current_image),
        ("turns", .arr (m.turns.map encodeTurn))]

/-- Python dict lookup on an object decoded from JSON. -/
def jsonGet (fields : List (String × Json)) (k : String) : Option Json :=
  (fields.find? fun p => p.1 == k).map fun p => p.2

/-- Read back an optional-string field. -/
def decOptStr : Option Json → Option String
  | some (.str s) => some s
  | _ => none

/-- Decode one turn dict as ConversationMemory.load does; `none` models the
lookup errors and shape mismatches that would raise on foreign data (never
reachable on data produced by save). -/
def decodeTurn (j : Json) : Option Turn :=
  match j with
  | .obj fields =>
    match jsonGet fields "role", jsonGet fields "content" with
    | some (.str role), some (.str content) =>
      let timestamp := match jsonGet fields "timestamp" with
        | some (.str s) => s
        | _ => ""
      let mdOpt := match jsonGet fields "metadata" with
        | some (.obj md) => some md
        | none => some []
        | _ => none
      match mdOpt with
      | some md =>
        some { role := role, content := content,
               image_path := decOptStr (jsonGet fields "image_path"),
               task := decOptStr (jsonGet fields "task"),
               timestamp := timestamp, metadata := md }
      | none => none
    | _, _ => none
  | _ => none

/-- Decode the turn list as the source's list comprehension does, where a
failure on any element aborts the whole load. -/
def decodeTurns : List Json → Option (List Turn)
  | [] => some []
  | j :: js =>
    match decodeTurn j, decodeTurns js with
    | some t, some ts => some (t :: ts)
    | _, _ => none

/-- Shallow embedding of ConversationMemory.load applied to a parsed JSON
tree; the receiving memory keeps its own max_turns, as the source assigns
only current_image and turns. -/
def loadData (m : ConversationMemory) (j : Json) : Option ConversationMemory :=
  match j with
  | .obj fields =>
    let cur := decOptStr (jsonGet fields "current_image")
    let turnsJ := match jsonGet fields "turns" with
      | some (.arr l) => some l
      | none => some []
      | _ => none
    match turnsJ with
    | some l =>
      (decodeTurns l).map fun ts => { m with current_image := cur, turns := ts }
    | none => none
  | _ => none

/-! ### MultiTurnInference (conversation_memory.py) -/

/-- State of a MultiTurnInference wrapper (the model handle and the repo
directory are opaque collaborator handles and carry no modelled state). -/
structure MultiTurnState where
  memory : ConversationMemory := {}
  use_context : Bool := true

/-- The shapes a model.inference call can hand back, as discriminated by the
source's result handling: Python's None; a dict with optional answer,
thinking and output_image entries, with strRepr carrying str(result), the
source's fallback answer for a dict lacking the answer key; a plain string;
or any other value carried by its str() rendering. -/
inductive InferResult
  | asNone
  | asDict (answer thinking output_image : Option String) (strRepr : String)
  | asStr (s : String)
  | asOther (strRepr : String)

/-- The (answer, thinking, output_image) triple the source computes from an
inference result. -/
def extractInfer : InferResult → String × String × Option String
  | .asNone => ("No response from model", "", none)
  | .asDict a t o r => (a.getD r, t.getD "", o)
  | .asStr s => (s, "", none)
  | .asOther r => (r, "", none)

/-- The result dict of MultiTurnInference.ask as a record of the keys that
may be present on its three return paths. -/
structure AskRet where
  error : Option String := none
  answer : Option String := none
  thinking : Option String := none
  output_image : Option String := none
  context_used : Option Bool := none
  turn_number : Option Nat := none
  task : Option String := none

/-- Shallow embedding of MultiTurnInference.ask.  The inference backend is
the collaborator `infer` (arguments: full prompt, image, task, thinking and
sampling flags) whose error case is the exception the source catches; tsU
and tsA are the wall-clock timestamps of the turns the call may create.
Returns the state after the call together with the result dict. -/
def mtAsk (infer : String → String → String → Bool → Bool → Except String InferResult)
    (st : MultiTurnState) (prompt : String) (image_path : Option String)
    (task : String) (enable_thinking do_sample : Bool) (tsU tsA : String) :
    MultiTurnState × AskRet :=
  let noImage : MultiTurnState × AskRet :=
    (st, { error := some "No image set. Use set_image() or provide image_path." })
  match pyOrStr image_path st.memory.current_image with
  | none => noImage
  | some img =>
    if img = "" then noImage
    else
      let full_prompt :=
        if st.use_context && !st.memory.turns.isEmpty then
          getContextPrompt st.memory true ++ "\n" ++ prompt
        else prompt
      let mem1 := addUserTurn st.memory prompt image_path task tsU
      match infer full_prompt img task enable_thinking do_sample with
      | .error e =>
        let errorMsg := "Inference error: " ++ e
        let mem2 :=
          match mem1.turns.getLast? with
          | some t =>
            if t.role = "user" then { mem1 with turns := mem1.turns.dropLast } else mem1
          | none => mem1
        ({ st with memory := mem2 },
         { error := some errorMsg, answer := some errorMsg,
           turn_number := some mem2.turns.length, context_used := some false })
      | .ok r =>
        let ext := extractInfer r
        let answer := ext.1
        let thinking := ext.2.1
        let output_image := ext.2.2
        let mem2 := addAssistantTurn mem1 answer
          [("thinking", .str thinking), ("task", .str task),
           ("output_image", encOptStr output_image)] tsA
        ({ st with memory := mem2 },
         { answer := some answer, thinking := some thinking,
           output_image := output_image,
           context_used := some (st.use_context && decide (2 < mem2.turns.length)),
           turn_number := some mem2.turns.length, task := some task })

/-! ### Pipeline executor (PipelineExecutor, pipeline_chat.py) -/

/-- One entry of the executor's step ledger.  Keys the source adds to the
step dict only on some paths are optional fields. -/
structure StepResult where
  step : Int
  task : String
  prompt : String
  description : String
  answer : Option String := none
  thinking : Option String := none
  coordinates : Option Geometry := none
  visualization : Option String := none
  error : Option String := none
  success : Bool

/-- The result dict self.chat.ask hands to the executor, reduced to the two
keys the executor reads with .get. -/
structure AskAnswer where
  answer : Option String := none
  thinking : Option String := none

/-- The executor's result dict. -/
structure PipelineResults where
  steps : List StepResult
  final_answer : String
  visualizations : List String
  success : Bool

/-- One line of the lossy executive summary built by _combine_results. -/
def renderStepLine (s : StepResult) : String :=
  "Step " ++ toString s.step ++ " (" ++ s.task ++ "): " ++ (s.answer.getD "").take 200

/-- Shallow embedding of PipelineExecutor._combine_results. -/
def combineResults (steps : List StepResult) : String :=
  if steps.isEmpty then "No results available."
  else
    let succ := steps.filter fun s => s.success
    if succ.length = 1 then
      match succ with
      | s :: _ => s.answer.getD ""
      | [] => ""
    else
      String.intercalate "\n\n" (succ.map renderStepLine)

/-- Modelled from the spec: the combined-answer rule of §4.4 step 6 — if
exactly one step succeeded it is the final answer verbatim, otherwise each
successful step is rendered and the renderings are joined with blank lines.
Stated independently of the code so the two can be compared. -/
def specCombinedAnswer (steps : List StepResult) : String :=
  match steps.filter fun s => s.success with
  | [s] => s.answer.getD ""
  | succ => String.intercalate "\n\n" (succ.map renderStepLine)

/-- The prompt execute_pipeline actually sends for one step: previous-result
injection (placeholder substitution, else appended truncated context) when
the step asks for it and the previous result is truthy, followed by the
trajectory prompt-enhancement call when a decomposer is held (`enhance`,
which the source guarantees never raises) and the prompt is still short. -/
def stepPrompt (enhance : Option (String → String)) (si : StepInfo)
    (prev : Option String) : String :=
  let origPrompt := si.prompt.getD ""
  let usePrev := si.use_previous.getD false
  let prompt1 :=
    match prev with
    | some p =>
      if usePrev && !(p == "") then
        let replaced := pyReplace origPrompt "{previous_result}" p
        if pyIn "{previous_result}" origPrompt then replaced
        else replaced ++ " (Context: " ++ p.take 200 ++ ")"
      else origPrompt
    | none => origPrompt
  match enhance with
  | some f =>
    if si.task.getD "general" == "trajectory" && prompt1.length < 80 then f prompt1
    else prompt1
  | none => prompt1

/-- Sequential execution loop of execute_pipeline.  `ask` is the chat
collaborator indexed by the number of steps already executed (the source
calls self.chat.ask once per step, and the session state that call mutates
lives behind the collaborator); `viz` is the rendering collaborator behind
_visualize_step, handed the step number, answer, task and prompt (the image
it draws on is session state owned by the collaborator, and it returns no
reference when rendering is unavailable or fails).  Returns the step
ledger, the visualization references, and the overall success flag. -/
def runSteps (ask : Nat → String → String → Except String AskAnswer)
    (enhance : Option (String → String))
    (viz : Int → String → String → String → Option String) :
    List StepInfo → Nat → Option String → List StepResult × List String × Bool
  | [], _, _ => ([], [], true)
  | si :: rest, i, prev =>
    let stepNum := si.step.getD (Int.ofNat (i + 1))
    let task := si.task.getD "general"
    let descr := si.description.getD ""
    let prompt2 := stepPrompt enhance si prev
    match ask i prompt2 task with
    | .ok d =>
      let answer := d.answer.getD ""
      let thinking := d.thinking.getD ""
      let coords := parseCoordinates answer task
      let coordsTruthy := match coords with
        | some g => g.isNonempty
        | none => false
      let vizPath :=
        if ["grounding", "affordance", "trajectory", "pointing"].contains task
            && coordsTruthy then
          viz stepNum answer task prompt2
        else none
      let sr : StepResult :=
        { step := stepNum, task := task, prompt := prompt2, description := descr,
          answer := some answer, thinking := some thinking,
          coordinates := if coordsTruthy then coords else none,
          visualization := vizPath, success := true }
      let restRes := runSteps ask enhance viz rest (i + 1) (some answer)
      (sr :: restRes.1,
       (match vizPath with | some v => [v] | none => []) ++ restRes.2.1,
       restRes.2.2)
    | .error e =>
      let sr : StepResult :=
        { step := stepNum, task := task, prompt := prompt2, description := descr,
          error := some e, success := false }
      let restRes := runSteps ask enhance viz rest (i + 1) (some ("Error: " ++ e))
      (sr :: restRes.1, restRes.2.1, false)

/-- Shallow embedding of PipelineExecutor.execute_pipeline. -/
def executePipeline (ask : Nat → String → String → Except String AskAnswer)
    (enhance : Option (String → String))
    (viz : Int → String → String → String → Option String)
    (pipeline : List StepInfo) : PipelineResults :=
  let r := runSteps ask enhance viz pipeline 0 none
  { steps := r.1, final_answer := combineResults r.1,
    visualizations := r.2.1, success := r.2.2 }

/-! ### Executor lemmas shared by several claims -/

/-- The ledger always has exactly one entry per pipeline step. -/
theorem runSteps_length
    (ask : Nat → String → String → Except String AskAnswer)
    (enhance : Option (String → String))
    (viz : Int → String → String → String → Option String) :
    ∀ (ps : List StepInfo) (i : Nat) (prev : Option String),
      (runSteps ask enhance viz ps i prev).1.length = ps.length := by
  intro ps
  induction ps with
  | nil => intro i prev; rfl
  | cons si rest ih =>
    intro i prev
    simp only [runSteps]
    split
    · simp [ih]
    · simp [ih]

/-- The executor's running success flag equals the conjunction of the
per-step success marks in the ledger. -/
theorem runSteps_success_eq_all
    (ask : Nat → String → String → Except String AskAnswer)
    (enhance : Option (String → String))
    (viz : Int → String → String → String → Option String) :
    ∀ (ps : List StepInfo) (i : Nat) (prev : Option String),
      (runSteps ask enhance viz ps i prev).2.2 =
        ((runSteps ask enhance viz ps i prev).1.all fun sr => sr.success) := by
  intro ps
  induction ps with
  | nil => intro i prev; rfl
  | cons si rest ih =>
    intro i prev
    simp only [runSteps]
    split
    · simp [ih]
    · simp

/-- Every failed ledger entry carries an error detail. -/
theorem runSteps_failed_have_error
    (ask : Nat → String → String → Except String AskAnswer)
    (enhance : Option (String → String))
    (viz : Int → String → String → String → Option String) :
    ∀ (ps : List StepInfo) (i : Nat) (prev : Option String),
      (((runSteps ask enhance viz ps i prev).1.filter fun sr => !sr.success).all
        fun sr => sr.error.isSome) = true := by
  intro ps
  induction ps with
  | nil => intro i prev; rfl
  | cons si rest ih =>
    intro i prev
    simp only [runSteps]
    split
    · simp [ih]
    · simp [ih]

/-! ### Claim C8: bounded memory retention -/

/-- One memory mutation: a user turn (content, optional image, task,
timestamp) or an assistant turn (content, metadata, timestamp). -/
inductive MemOp
  | user (content : String) (image_path : Option String) (task : String) (ts : String)
  | assistant (content : String) (metadata : List (String × Json)) (ts : String)

/-- Apply one mutation, dispatching to the two source methods. -/
def applyOp (m : ConversationMemory) : MemOp → ConversationMemory
  | .user c ip task ts => addUserTurn m c ip task ts
  | .assistant c md ts => addAssistantTurn m c md ts

/-- The current image after one mutation. -/
def opImage (cur : Option String) : MemOp → Option String
  | .user _ ip _ _ => if optTruthy ip then ip else cur
  | .assistant _ _ _ => cur

/-- The turn one mutation appends, given the current image before it. -/
def mkOpTurn (cur : Option String) : MemOp → Turn
  | .user c ip task ts =>
    { role := "user", content := c,
      image_path := pyOrStr ip (if optTruthy ip then ip else cur),
      task := some task, timestamp := ts, metadata := [] }
  | .assistant c md ts =>
    { role := "assistant", content := c, image_path := cur, task := none,
      timestamp := ts, metadata := md }

/-- The turns a mutation sequence appends, oldest first. -/
def opTurns (cur : Option String) : List MemOp → List Turn
  | [] => []
  | op :: ops => mkOpTurn cur op :: opTurns (opImage cur op) ops

theorem pySliceLast_eq_rtake {α : Type} (k : Nat) (hk : 1 ≤ k) (l : List α) :
    pySliceLast k l = l.rtake k := by
  rw [pySliceLast, if_neg (by omega)]
  rfl

theorem rtake_of_length_le {α : Type} (k : Nat) (l : List α) (h : l.length ≤ k) :
    l.rtake k = l := by
  have hz : l.length - k = 0 := Nat.sub_eq_zero_of_le h
  simp [List.rtake, hz]

theorem length_rtake_le {α : Type} (k : Nat) (l : List α) : (l.rtake k).length ≤ k := by
  simp only [List.rtake, List.length_drop]
  omega

/-- Taking the last k elements twice around an append collapses. -/
theorem rtake_rtake_append {α : Type} (k : Nat) (xs ys : List α) :
    ((xs.rtake k) ++ ys).rtake k = (xs ++ ys).rtake k := by
  rw [List.rtake_eq_reverse_take_reverse xs,
      List.rtake_eq_reverse_take_reverse (((xs.reverse.take k).reverse) ++ ys),
      List.rtake_eq_reverse_take_reverse (xs ++ ys)]
  congr 1
  rw [List.reverse_append, List.reverse_reverse, List.reverse_append]
  rw [List.take_append_eq_append_take, List.take_append_eq_append_take, List.take_take]
  congr 1
  rw [Nat.min_eq_left (Nat.sub_le _ _)]

theorem trimHistory_turns (m : ConversationMemory) (h : 1 ≤ m.max_turns) :
    (trimHistory m).turns = m.turns.rtake m.max_turns := by
  rw [trimHistory]
  split_ifs with hlt
  · exact pySliceLast_eq_rtake _ h _
  · exact (rtake_of_length_le _ _ (by omega)).symm

theorem applyOp_turns (m : ConversationMemory) (op : MemOp) (h : 1 ≤ m.max_turns) :
    (applyOp m op).turns =
      (m.turns ++ [mkOpTurn m.current_image op]).rtake m.max_turns := by
  cases op with
  | user c ip task ts => exact trimHistory_turns _ h
  | assistant c md ts => exact trimHistory_turns _ h

theorem applyOp_current_image (m : ConversationMemory) (op : MemOp) :
    (applyOp m op).current_image = opImage m.current_image op := by
  cases op with
  | user c ip task ts =>
    show (addUserTurn m c ip task ts).current_image = _
    rw [addUserTurn, trimHistory]
    split_ifs <;> simp_all [opImage]
  | assistant c md ts =>
    show (addAssistantTurn m c md ts).current_image = _
    rw [addAssistantTurn, trimHistory]
    split_ifs <;> simp_all [opImage]

theorem applyOp_max_turns (m : ConversationMemory) (op : MemOp) :
    (applyOp m op).max_turns = m.max_turns := by
  cases op with
  | user c ip task ts =>
    show (addUserTurn m c ip task ts).max_turns = _
    rw [addUserTurn, trimHistory]
    split_ifs <;> rfl
  | assistant c md ts =>
    show (addAssistantTurn m c md ts).max_turns = _
    rw [addAssistantTurn, trimHistory]
    split_ifs <;> rfl

/-- C8 counterexample: for a memory constructed with max_turns 0, Python's
slice turns[-0:] is the whole list, so a single user turn already violates
the claimed bound. -/
theorem memory_trim_zero_counterexample :
    ¬ ((applyOp { turns := [], current_image := none, max_turns := 0 }
          (.user "hi" none "general" "t0")).turns.length ≤
        ({ turns := [], current_image := none, max_turns := 0 } :
          ConversationMemory).max_turns) := by
  decide

/-- C8 amended: for every memory whose bound is at least one (in particular
the default 20) and whose stored turns respect the bound, after any finite
sequence of add_user_turn / add_assistant_turn calls the turns list is
exactly the last max_turns entries of the full append history — the most
recently appended turns in their original relative order — and its length
never exceeds max_turns; a memory constructed with max_turns 0 escapes the
bound through the degenerate turns[-0:] slice. -/
theorem memory_trim_keeps_most_recent :
    ∀ (ops : List MemOp) (m : ConversationMemory), 1 ≤ m.max_turns →
      m.turns.length ≤ m.max_turns →
      (ops.foldl applyOp m).turns =
        (m.turns ++ opTurns m.current_image ops).rtake m.max_turns
      ∧ (ops.foldl applyOp m).turns.length ≤ m.max_turns := by
  intro ops
  induction ops with
  | nil =>
    intro m h hinv
    exact ⟨by simp [opTurns, rtake_of_length_le _ _ hinv], hinv⟩
  | cons op ops ih =>
    intro m h hinv
    have hmax : (applyOp m op).max_turns = m.max_turns := applyOp_max_turns m op
    have hturns : (applyOp m op).turns =
        (m.turns ++ [mkOpTurn m.current_image op]).rtake m.max_turns :=
      applyOp_turns m op h
    have hlen : (applyOp m op).turns.length ≤ (applyOp m op).max_turns := by
      rw [hturns, hmax]
      exact length_rtake_le _ _
    have ih2 := ih (applyOp m op) (by rw [hmax]; exact h) hlen
    rw [List.foldl_cons]
    constructor
    · rw [ih2.1, hturns, applyOp_current_image, hmax, rtake_rtake_append,
        List.append_assoc]
      rfl
    · rw [hmax] at ih2
      exact ih2.2

/-- Witness for the amended C8: three user turns into a two-slot memory. -/
theorem memory_trim_witness :
    (1 ≤ ({ turns := [], current_image := none, max_turns := 2 } :
        ConversationMemory).max_turns)
    ∧ (([MemOp.user "a" none "general" "t1", MemOp.user "b" none "general" "t2",
         MemOp.user "c" none "general" "t3"].foldl applyOp
           { turns := [], current_image := none, max_turns := 2 }).turns.length ≤ 2) :=
  ⟨by decide,
   (memory_trim_keeps_most_recent
      [MemOp.user "a" none "general" "t1", MemOp.user "b" none "general" "t2",
       MemOp.user "c" none "general" "t3"]
      { turns := [], current_image := none, max_turns := 2 }
      (by decide) (by decide)).2⟩

/-! ### Claim C9: save/load round trip -/

theorem decodeTurn_encodeTurn (t : Turn) : decodeTurn (encodeTurn t) = some t := by
  rcases t with ⟨role, content, ip, task, ts, md⟩
  cases ip <;> cases task <;> rfl

theorem decodeTurns_map_encode (l : List Turn) :
    decodeTurns (l.map encodeTurn) = some l := by
  induction l with
  | nil => rfl
  | cons t ts ih =>
    rw [List.map_cons, decodeTurns, decodeTurn_encodeTurn, ih]

/-- C9: saving a memory and loading the saved record reproduces the
identical ordered turn list — every field (role, content, image reference,
task, timestamp, metadata) of every turn preserved — and the same current
image, into any receiving memory (which keeps only its own bound). -/
theorem save_load_round_trip (m target : ConversationMemory) :
    loadData target (saveData m) =
      some { target with turns := m.turns, current_image := m.current_image } := by
  cases hcur : m.current_image <;>
    simp [saveData, loadData, jsonGet, encOptStr, decOptStr, decodeTurns_map_encode, hcur]

/-! ### Claim C10: inference failure inside ask -/

/-- With room left under the bound, add_user_turn is a plain append. -/
theorem addUserTurn_turns_of_room (m : ConversationMemory) (c : String)
    (ip : Option String) (task ts : String) (h : m.turns.length < m.max_turns) :
    (addUserTurn m c ip task ts).turns =
      m.turns ++ [mkOpTurn m.current_image (.user c ip task ts)] := by
  rw [addUserTurn, trimHistory]
  rw [if_neg (by simp; omega)]
  rfl

/-- C10: if the inference collaborator raises while the memory held fewer
than max_turns turns before the call, ask removes the user turn it had just
appended — leaving the turn list exactly its pre-call value — and returns a
result dict carrying the error message in both its error and answer fields
instead of raising. -/
theorem mtAsk_error_restores_turns
    (infer : String → String → String → Bool → Bool → Except String InferResult)
    (st : MultiTurnState) (prompt : String) (image_path : Option String)
    (task : String) (et ds : Bool) (tsU tsA : String) (img e : String)
    (himg : pyOrStr image_path st.memory.current_image = some img)
    (himg2 : ¬ img = "")
    (hroom : st.memory.turns.length < st.memory.max_turns)
    (herr : infer
        (if st.use_context && !st.memory.turns.isEmpty then
          getContextPrompt st.memory true ++ "\n" ++ prompt
        else prompt) img task et ds = .error e) :
    (mtAsk infer st prompt image_path task et ds tsU tsA).1.memory.turns
        = st.memory.turns
    ∧ (mtAsk infer st prompt image_path task et ds tsU tsA).2.error
        = some ("Inference error: " ++ e)
    ∧ (mtAsk infer st prompt image_path task et ds tsU tsA).2.answer
        = some ("Inference error: " ++ e) := by
  have hmem1 := addUserTurn_turns_of_room st.memory prompt image_path task tsU hroom
  rw [mtAsk, himg]
  dsimp only
  rw [if_neg himg2, herr]
  dsimp only
  rw [hmem1, List.getLast?_concat]
  dsimp only [mkOpTurn]
  rw [if_pos rfl, List.dropLast_concat]
  exact ⟨rfl, rfl, rfl⟩

/-- Witness for C10 at a concrete failing backend call. -/
theorem mtAsk_error_witness :
    (({ memory := { turns := [], current_image := some "img.jpg", max_turns := 20 },
        use_context := true } : MultiTurnState).memory.turns.length <
      ({ memory := { turns := [], current_image := some "img.jpg", max_turns := 20 },
         use_context := true } : MultiTurnState).memory.max_turns)
    ∧ (mtAsk (fun _ _ _ _ _ => .error "CUDA out of memory")
        { memory := { turns := [], current_image := some "img.jpg", max_turns := 20 },
          use_context := true } "hello" none "general" true true "t1" "t2").1.memory.turns
        = ({ memory := { turns := [], current_image := some "img.jpg", max_turns := 20 },
             use_context := true } : MultiTurnState).memory.turns
    ∧ (mtAsk (fun _ _ _ _ _ => .error "CUDA out of memory")
        { memory := { turns := [], current_image := some "img.jpg", max_turns := 20 },
          use_context := true } "hello" none "general" true true "t1" "t2").2.error
        = some ("Inference error: " ++ "CUDA out of memory") := by
  refine ⟨by decide, ?_, ?_⟩
  · exact (mtAsk_error_restores_turns (fun _ _ _ _ _ => .error "CUDA out of memory")
      { memory := { turns := [], current_image := some "img.jpg", max_turns := 20 },
        use_context := true } "hello" none "general" true true "t1" "t2"
      "img.jpg" "CUDA out of memory" rfl (by decide) (by decide) rfl).1
  · exact (mtAsk_error_restores_turns (fun _ _ _ _ _ => .error "CUDA out of memory")
      { memory := { turns := [], current_image := some "img.jpg", max_turns := 20 },
        use_context := true } "hello" none "general" true true "t1" "t2"
      "img.jpg" "CUDA out of memory" rfl (by decide) (by decide) rfl).2.1

/-! ### Claim C1: per-step failure isolation -/

/-- Step oracle of the C1 scenario: the first call answers, the second
raises with a detail, the third answers again. -/
def c1demoAsk : Nat → String → String → Except String AskAnswer :=
  fun i _ _ =>
    match i with
    | 0 => .ok { answer := some "a red cup on a table" }
    | 1 => .error "GPU out of memory"
    | _ => .ok { answer := some "done" }

/-- Three-step pipeline of the C1 scenario; the third step consumes the
previous result. -/
def c1demoPipeline : List StepInfo :=
  [{ step := some 1, task := some "general", prompt := some "describe the scene",
     description := some "scene overview", use_previous := some false },
   { step := some 2, task := some "grounding", prompt := some "the red cup",
     description := some "locate the cup", use_previous := some false },
   { step := some 3, task := some "grounding", prompt := some "move toward it",
     description := some "follow-up", use_previous := some true }]

/-- The executed C1 scenario (rendering collaborator unavailable). -/
def c1demo : PipelineResults :=
  executePipeline c1demoAsk none (fun _ _ _ _ => none) c1demoPipeline

set_option maxRecDepth 8000 in
/-- C1: a raising step is isolated.  In general, the ledger always has one
entry per pipeline step (the executor never aborts), every failed ledger
entry carries an error detail, and a step whose collaborator call raises
with detail d is recorded as a failed entry carrying d while execution
continues with the remaining steps under the synthesized previous-result
string "Error: " ++ d.  In particular, in the 3-step scenario whose second
step fails, the ledger has exactly the entries for steps 1, 2, 3 in order,
step 2 is failed with its detail, the third step runs with the synthesized
context spliced into its prompt, overallSuccess is false, and the combined
answer still carries both successful steps' summaries. -/
theorem pipeline_isolates_step_failures :
    (∀ (ask : Nat → String → String → Except String AskAnswer)
       (enhance : Option (String → String))
       (viz : Int → String → String → String → Option String)
       (ps : List StepInfo),
        (executePipeline ask enhance viz ps).steps.length = ps.length
        ∧ (((executePipeline ask enhance viz ps).steps.filter fun sr => !sr.success).all
            fun sr => sr.error.isSome) = true)
    ∧ (∀ (ask : Nat → String → String → Except String AskAnswer)
       (enhance : Option (String → String))
       (viz : Int → String → String → String → Option String)
       (si : StepInfo) (rest : List StepInfo) (i : Nat) (prev : Option String)
       (d : String),
        ask i (stepPrompt enhance si prev) (si.task.getD "general") = .error d →
        runSteps ask enhance viz (si :: rest) i prev =
          ({ step := si.step.getD (Int.ofNat (i + 1)), task := si.task.getD "general",
             prompt := stepPrompt enhance si prev,
             description := si.description.getD "",
             error := some d, success := false }
            :: (runSteps ask enhance viz rest (i + 1) (some ("Error: " ++ d))).1,
           (runSteps ask enhance viz rest (i + 1) (some ("Error: " ++ d))).2.1,
           false))
    ∧ ((c1demo.steps.map fun sr => sr.step) = [1, 2, 3]
        ∧ (c1demo.steps.map fun sr => sr.success) = [true, false, true]
        ∧ (c1demo.steps.map fun sr => sr.error) = [none, some "GPU out of memory", none]
        ∧ (c1demo.steps.map fun sr => sr.prompt) =
            ["describe the scene", "the red cup",
             "move toward it (Context: Error: GPU out of memory)"]
        ∧ c1demo.success = false
        ∧ c1demo.final_answer =
            "Step 1 (general): a red cup on a table\n\nStep 3 (grounding): done") := by
  refine ⟨fun ask enhance viz ps =>
      ⟨runSteps_length ask enhance viz ps 0 none,
       runSteps_failed_have_error ask enhance viz ps 0 none⟩,
    fun ask enhance viz si rest i prev d h => ?_, by decide⟩
  simp only [runSteps, h]

/-- Witness for C1's error-threading part at a concrete one-step pipeline
whose only step raises. -/
theorem pipeline_isolates_witness :
    ((fun (_ : Nat) (_ : String) (_ : String) =>
        (Except.error "boom" : Except String AskAnswer)) 0
      (stepPrompt none { task := some "general", prompt := some "hi" } none)
      (({ task := some "general", prompt := some "hi" } : StepInfo).task.getD "general")
      = Except.error "boom")
    ∧ runSteps (fun _ _ _ => Except.error "boom") none (fun _ _ _ _ => none)
        [{ task := some "general", prompt := some "hi" }] 0 none =
      ({ step := Int.ofNat 1,
         task := ({ task := some "general", prompt := some "hi" } : StepInfo).task.getD "general",
         prompt := stepPrompt none { task := some "general", prompt := some "hi" } none,
         description := ({ task := some "general", prompt := some "hi" } : StepInfo).description.getD "",
         error := some "boom", success := false }
        :: (runSteps (fun _ _ _ => Except.error "boom") none (fun _ _ _ _ => none)
            [] 1 (some ("Error: " ++ "boom"))).1,
       (runSteps (fun _ _ _ => Except.error "boom") none (fun _ _ _ _ => none)
          [] 1 (some ("Error: " ++ "boom"))).2.1,
       false) :=
  ⟨rfl, pipeline_isolates_step_failures.2.1 (fun _ _ _ => Except.error "boom") none
    (fun _ _ _ _ => none) { task := some "general", prompt := some "hi" } [] 0 none
    "boom" rfl⟩

/-! ### Claim C2: combined answer -/

/-- C2 counterexample: executing the zero-step pipeline (reachable whenever
the decomposer's JSON is the literal empty array) yields the fixed text
"No results available.", not the blank-line join over the (zero) successful
steps that the claimed rule produces. -/
theorem combineResults_empty_counterexample :
    (executePipeline (fun _ _ _ => .error "unused") none (fun _ _ _ _ => none)
        []).final_answer
      ≠ specCombinedAnswer
          (executePipeline (fun _ _ _ => .error "unused") none (fun _ _ _ _ => none)
            []).steps := by
  decide

/-- C2 amended: for every executed pipeline whose ledger is non-empty, the
combined answer is built from the successful steps only — exactly one
successful step is returned verbatim, and otherwise each successful step is
rendered as "Step n (task): answer truncated to 200 characters" and the
renderings are joined with blank lines in step order; an empty ledger
yields the fixed text "No results available." instead. -/
theorem combineResults_eq_spec_of_nonempty (steps : List StepResult)
    (h : steps ≠ []) : combineResults steps = specCombinedAnswer steps := by
  rw [combineResults, if_neg (by simpa using h)]
  rcases hs : steps.filter (fun s => s.success) with _ | ⟨s, rest⟩
  · simp [specCombinedAnswer, hs]
  · rcases rest with _ | ⟨r, rs⟩
    · simp [specCombinedAnswer, hs]
    · simp [specCombinedAnswer, hs]

/-- Witness for the amended C2 at a concrete one-entry ledger. -/
theorem combineResults_spec_witness :
    ([({ step := 1, task := "general", prompt := "p", description := "d",
         answer := some "the answer", success := true } : StepResult)] ≠ [])
    ∧ combineResults
        [{ step := 1, task := "general", prompt := "p", description := "d",
           answer := some "the answer", success := true }] =
      specCombinedAnswer
        [{ step := 1, task := "general", prompt := "p", description := "d",
           answer := some "the answer", success := true }] := by
  refine ⟨by simp, ?_⟩
  exact combineResults_eq_spec_of_nonempty _ (by simp)

/-! ### Claim C3: the overallSuccess flag -/

/-- C3 counterexample: a one-step pipeline that is attempted but whose only
step raises yields overallSuccess false, so the flag is not true whenever
the pipeline was merely attempted. -/
theorem overallSuccess_attempted_counterexample :
    (executePipeline (fun _ _ _ => .error "backend down") none (fun _ _ _ _ => none)
      [{ step := some 1, task := some "general", prompt := some "describe",
         description := some "one step", use_previous := some false }]).success
      = false := by
  rfl

/-- C3 amended: overallSuccess equals the conjunction of the per-step
success marks — true iff every step succeeded, false as soon as any step
raised — rather than true whenever the pipeline was attempted. -/
theorem overallSuccess_iff_every_step
    (ask : Nat → String → String → Except String AskAnswer)
    (enhance : Option (String → String))
    (viz : Int → String → String → String → Option String)
    (pipeline : List StepInfo) :
    (executePipeline ask enhance viz pipeline).success =
      ((executePipeline ask enhance viz pipeline).steps.all fun sr => sr.success) :=
  runSteps_success_eq_all ask enhance viz pipeline 0 none

/-! ### Claim C4: decomposer fallback -/

/-- C4: whenever the decomposer's raw output contains no parsable JSON
array — either no bracketed array substring at all, or one on which loading
raises — or the decomposition call itself fails, decompose returns, without
raising to the caller, a pipeline of exactly one step whose task is general,
whose prompt is the original query verbatim, and whose use_previous flag is
false. -/
theorem decompose_fallback_single_general_step
    (loadsArray : String → Option (List StepInfo)) (query : String) :
    (∀ descr, (fallbackSingleStep query descr).task = some "general"
      ∧ (fallbackSingleStep query descr).prompt = some query
      ∧ (fallbackSingleStep query descr).use_previous = some false)
    ∧ (∀ e, decompose loadsArray (.error e) query =
        [fallbackSingleStep query "Fallback: process as general query"])
    ∧ (∀ raw, extractArray (pyStrip raw).data = none →
        decompose loadsArray (.ok raw) query =
          [fallbackSingleStep query "Process query directly"])
    ∧ (∀ raw sub, extractArray (pyStrip raw).data = some sub →
        loadsArray (String.mk sub) = none →
        decompose loadsArray (.ok raw) query =
          [fallbackSingleStep query "Fallback: process as general query"]) := by
  refine ⟨fun descr => ⟨rfl, rfl, rfl⟩, fun e => rfl, fun raw h => ?_,
    fun raw sub h1 h2 => ?_⟩
  · simp [decompose, h]
  · simp [decompose, h1, h2]

/-- Witness for C4 at a concrete bracket-free decomposer output. -/
theorem decompose_fallback_witness :
    extractArray (pyStrip "The pipeline is: step one only.").data = none
    ∧ decompose (fun _ => none) (Except.ok "The pipeline is: step one only.")
        "where is the cup" =
        [fallbackSingleStep "where is the cup" "Process query directly"] := by
  refine ⟨by decide, ?_⟩
  exact (decompose_fallback_single_general_step (fun _ => none) "where is the cup").2.2.1
    "The pipeline is: step one only." (by decide)

/-! ### Claim C7: single-task classification error path -/

/-- C7 counterexample: when the classification collaborator errors, the
source returns "general" even for a query whose keyword fallback
classification is grounding, so classify_single does not return the keyword
fallback result. -/
theorem classifySingle_error_differs_from_fallback :
    classifySingle (fun _ => .error "rate limit") "where is the cup"
      ≠ (classifyTaskFallback "where is the cup").1 := by
  decide

/-- C7 amended: on any collaborator error, classify_single returns the
fixed answer "general" for every query — it never consults the keyword
fallback of smart_chat and never propagates the error to its caller. -/
theorem classifySingle_error_returns_general
    (respond : String → Except String String) (query e : String)
    (h : respond query = .error e) :
    classifySingle respond query = "general" := by
  simp [classifySingle, h]

/-- Witness for the amended C7 at a concrete query. -/
theorem classifySingle_error_witness :
    (fun _ : String => (Except.error "down" : Except String String)) "pick up the mug" =
        Except.error "down"
    ∧ classifySingle (fun _ => .error "down") "pick up the mug" = "general" :=
  ⟨rfl, classifySingle_error_returns_general (fun _ => .error "down") "pick up the mug"
    "down" rfl⟩

/-! ### Claim C5: grounding/affordance extraction order -/

/-- C5: for grounding and affordance tasks, extraction first collects every
bracketed quadruple occurrence as a box, and only when there is none falls
back to parenthesized pair matches, each expanded to the half-width-30 box
around the point; at the spec's example answer under the grounding task it
yields exactly the one box (10, 20, 110, 220). -/
theorem grounding_extraction_box_then_point_fallback :
    (∀ (a t : String), t = "grounding" ∨ t = "affordance" →
      parseCoordinates a t =
        (if !(findQuads a).isEmpty then some (.boxes (findQuads a))
         else if (findPairs '(' ')' a).isEmpty then none
         else some (.boxes ((findPairs '(' ')' a).map fun p =>
           (qShift p.1 (-30), qShift p.2 (-30), qShift p.1 30, qShift p.2 30)))))
    ∧ parseCoordinates "the box is at [10, 20, 110, 220]" "grounding" =
        some (.boxes [(10, 20, 110, 220)]) := by
  constructor
  · rintro a t (rfl | rfl) <;> simp [parseCoordinates]
  · decide

/-- Witness for C5's quantified part at a concrete point-only answer under
the affordance task: the bare point (40, 50) becomes the box (10, 20, 70, 80). -/
theorem grounding_extraction_witness :
    (("affordance" : String) = "grounding" ∨ ("affordance" : String) = "affordance")
    ∧ parseCoordinates "grab it at (40, 50)" "affordance" =
        some (.boxes [(10, 20, 70, 80)]) := by
  refine ⟨Or.inr rfl, ?_⟩
  rw [grounding_extraction_box_then_point_fallback.1 "grab it at (40, 50)" "affordance"
    (Or.inr rfl)]
  decide

/-! ### Claim C6: extraction totality and the no-geometry value -/

/-- C6: coordinate extraction is a total function of the (answer, task)
pair — the embedding is a plain function, with no reachable raising path in
the source body — and it returns the no-geometry value `none` exactly when
no pattern relevant to the task matches; moreover any geometry it does
return is non-empty, so callers never see an error value or a degenerate
empty match list. -/
theorem parseCoordinates_none_iff_no_match (a t : String) :
    (parseCoordinates a t = none ↔ noMatches a t = true)
    ∧ (parseCoordinates a t).all Geometry.isNonempty = true := by
  rw [parseCoordinates, noMatches]
  split_ifs with h1 h2 h3
  · cases hms : (findPairs '(' ')' a).isEmpty <;>
      simp [hms, Geometry.isNonempty]
  · cases hbs : (findQuads a).isEmpty
    · simp [hbs, Geometry.isNonempty]
    · cases hps : (findPairs '(' ')' a).isEmpty <;>
        simp_all [Geometry.isNonempty]
  · cases hbs : (findPairs '[' ']' a).isEmpty
    · simp [hbs, Geometry.isNonempty]
    · cases hps : (findPairs '(' ')' a).isEmpty <;>
        simp_all [Geometry.isNonempty]
  · simp

end Robobrain
